import Mathlib

/-!
Verification development for the `name_check` repository: a shallow embedding
of the browser-automation core (CAPTCHA retry loop, generic step retrier,
login routine, result-tab scraper, NIC-code multi-select, company-name
formatting, API error envelope) together with theorems settling the spec
claims about these functions.

Browser/network effects are modelled by explicit environment parameters
(one outcome per loop iteration / per tab / per attempt), and `while` loops
are embedded as fuel-indexed recursions: a result of `none` means the loop
has not returned after the given number of iterations, so `none` for every
fuel value means the loop never returns.

Python strings are modelled as Lean `String`; the Python operations used by
the source (`str.upper`, `str.lower`, `substring in s`, `str.split(',')`,
`str.strip`) are defined below at the character-list level so that they
evaluate by kernel reduction. A `None`/absent Python string is modelled as
`""` (both are falsy, which is the only property the source uses).
-/

/-- Model of Python `str.upper` (ASCII case mapping, as used by the source). -/
def pyUpper (s : String) : String := ⟨s.data.map Char.toUpper⟩

/-- Model of Python `str.lower` (ASCII case mapping, as used by the source). -/
def pyLower (s : String) : String := ⟨s.data.map Char.toLower⟩

/-- Boolean test that the first list is a prefix of the second. -/
def isPrefixB : List Char → List Char → Bool
  | [], _ => true
  | _ :: _, [] => false
  | a :: as, b :: bs => if a = b then isPrefixB as bs else false

/-- Boolean test that `needle` occurs as a contiguous substring of `hay`
(model of Python `needle in hay` on strings). -/
def containsSubB : List Char → List Char → Bool
  | needle, [] => isPrefixB needle []
  | needle, c :: rest => isPrefixB needle (c :: rest) || containsSubB needle rest

/-- String-level wrapper for `containsSubB`: Python `sub in hay`. -/
def pyContainsSub (hay sub : String) : Bool := containsSubB sub.data hay.data

/-- Model of Python `s.split(sep)` for a one-character separator. -/
def splitOnChar (sep : Char) : List Char → List (List Char)
  | [] => [[]]
  | c :: rest =>
    match splitOnChar sep rest with
    | [] => [[]]
    | group :: groups => if c = sep then [] :: group :: groups else (c :: group) :: groups

/-- Model of Python `str.strip`: drop leading and trailing whitespace. -/
def pyStrip (l : List Char) : List Char :=
  ((l.dropWhile Char.isWhitespace).reverse.dropWhile Char.isWhitespace).reverse

/-- Conversion of `Char.ofNat` back to `Nat` on valid code points. -/
theorem char_toNat_ofNat_valid (n : Nat) (h : n.isValidChar) : (Char.ofNat n).toNat = n := by
  simp only [Char.ofNat, dif_pos h, Char.ofNatAux, Char.toNat, UInt32.toNat, BitVec.toNat_ofNatLt]

/-- Lowercasing never produces the character `B`. -/
theorem char_toLower_ne_B (c : Char) : c.toLower ≠ 'B' := by
  intro h
  have h2 := congrArg Char.toNat h
  rw [Char.toLower] at h2
  by_cases hc : c.toNat ≥ 65 ∧ c.toNat ≤ 90
  · rw [if_pos hc] at h2
    rw [char_toNat_ofNat_valid] at h2
    · have hB : ('B' : Char).toNat = 66 := rfl
      omega
    · left; omega
  · rw [if_neg hc] at h2
    have hB : ('B' : Char).toNat = 66 := rfl
    rw [hB] at h2
    push_neg at hc
    omega

/-- Uppercasing is idempotent on characters. -/
theorem char_toUpper_toUpper (c : Char) : c.toUpper.toUpper = c.toUpper := by
  rw [Char.toUpper, Char.toUpper]
  by_cases hc : c.toNat ≥ 97 ∧ c.toNat ≤ 122
  · rw [if_pos hc]
    have hv : (c.toNat - 32).isValidChar := by left; omega
    have ht : (Char.ofNat (c.toNat - 32)).toNat = c.toNat - 32 := char_toNat_ofNat_valid _ hv
    rw [if_neg]
    rw [ht]
    omega
  · rw [if_neg hc, if_neg hc]

/-- Mapping `Char.toUpper` twice over a list equals mapping it once. -/
theorem mapToUpper_idem (l : List Char) :
    (l.map Char.toUpper).map Char.toUpper = l.map Char.toUpper := by
  induction l with
  | nil => rfl
  | cons c cs ih => simp [char_toUpper_toUpper, ih]

/-- `pyUpper` is idempotent. -/
theorem pyUpper_idem (s : String) : pyUpper (pyUpper s) = pyUpper s :=
  congrArg String.mk (mapToUpper_idem s.data)

/-- Every list is a prefix of itself. -/
theorem isPrefixB_refl (l : List Char) : isPrefixB l l = true := by
  induction l with
  | nil => rfl
  | cons c cs ih => simp [isPrefixB, ih]

/-- Every list occurs as a substring of itself. -/
theorem containsSubB_self (l : List Char) : containsSubB l l = true := by
  cases l with
  | nil => rfl
  | cons c cs => simp [containsSubB, isPrefixB_refl]

/-- Substring occurrence is preserved by prepending to the haystack. -/
theorem containsSubB_append_right (needle l2 : List Char) (h : containsSubB needle l2 = true) :
    ∀ l1 : List Char, containsSubB needle (l1 ++ l2) = true := by
  intro l1
  induction l1 with
  | nil => simpa using h
  | cons c cs ih => simp [containsSubB, ih]

/-- A needle starting with a character that is absent from the haystack
never occurs as a substring of the haystack. -/
theorem containsSubB_head_notMem (ch : Char) (t : List Char) :
    ∀ l : List Char, (∀ c ∈ l, c ≠ ch) → containsSubB (ch :: t) l = false := by
  intro l
  induction l with
  | nil => intro _; rfl
  | cons c rest ih =>
    intro h
    have hc : c ≠ ch := h c (List.mem_cons_self c rest)
    have hrec := ih (fun x hx => h x (List.mem_cons_of_mem c hx))
    simp only [containsSubB, isPrefixB, Bool.or_eq_false_iff]
    constructor
    · rw [if_neg (Ne.symm hc)]
    · exact hrec

/-!
CAPTCHA solve loop — `handle_captcha_on_page` in
`name_checker_shivansh/login_with_persistence.py` (lines 50-110).

The body of the `while attempt < max_attempts` loop reaches exactly one of
the following per-iteration outcomes, classified from the source:

* `incorrectCaptcha` — the API solved the challenge, the form was submitted,
  and the incorrect-captcha error indicator is displayed: the code clears the
  input, clicks refresh, sleeps and `continue`s (the `attempt` counter is NOT
  incremented on this path, line 75);
* `accepted` — submit happened and no incorrect-captcha indicator was found
  (either the element is absent or its text differs): `return True`;
* `apiFailed` — the solve API returned no text: refresh, `attempt += 1`;
* `elementMissing` — a `TimeoutException`/`NoSuchElementException` escaped the
  iteration body: `attempt += 1`, and if `attempt >= max_attempts` the function
  returns `False` at once;
* `generalError` — any other exception: `attempt += 1`, refresh if attempts
  remain, and loop.

After the loop exits normally the function returns `False`.
-/

/-- Per-iteration outcome of the CAPTCHA loop body, classified from the source. -/
inductive CaptchaIterOutcome
  | incorrectCaptcha
  | accepted
  | apiFailed
  | elementMissing
  | generalError
  deriving DecidableEq

/-- Fuel-indexed embedding of the `while attempt < max_attempts` loop of
`handle_captcha_on_page`. Arguments after the fuel are the iteration counter
(indexing into the environment) and the `attempt` variable. `none` means the
loop is still running after `fuel` iterations. -/
def handle_captcha_loop (env : Nat → CaptchaIterOutcome) (max_attempts : Nat) :
    Nat → Nat → Nat → Option Bool
  | 0, _, _ => none
  | fuel + 1, iter, attempt =>
    if attempt < max_attempts then
      match env iter with
      | .incorrectCaptcha => handle_captcha_loop env max_attempts fuel (iter + 1) attempt
      | .accepted => some true
      | .apiFailed => handle_captcha_loop env max_attempts fuel (iter + 1) (attempt + 1)
      | .elementMissing =>
        if attempt + 1 ≥ max_attempts then some false
        else handle_captcha_loop env max_attempts fuel (iter + 1) (attempt + 1)
      | .generalError => handle_captcha_loop env max_attempts fuel (iter + 1) (attempt + 1)
    else some false

/-- Embedding of `handle_captcha_on_page`: run the loop from `attempt = 0`. -/
def handle_captcha_on_page (env : Nat → CaptchaIterOutcome) (max_attempts fuel : Nat) :
    Option Bool :=
  handle_captcha_loop env max_attempts fuel 0 0

/-- Under consecutive incorrect-captcha responses the `attempt` counter is
never incremented, so the loop never exits, whatever the fuel. -/
theorem handle_captcha_loop_incorrect_stuck (max_attempts : Nat) (h : 0 < max_attempts) :
    ∀ fuel iter : Nat,
      handle_captcha_loop (fun _ => .incorrectCaptcha) max_attempts fuel iter 0 = none := by
  intro fuel
  induction fuel with
  | zero => intro iter; rfl
  | succ n ih =>
    intro iter
    simp only [handle_captcha_loop, if_pos h]
    exact ih (iter + 1)

/-- C1: the CAPTCHA solve loop is claimed to perform a bounded number of
attempts — given `N` consecutive incorrect-captcha responses it should return
failure without an `(N+1)`-th attempt. The code violates this: on the
incorrect-captcha path the loop `continue`s without incrementing `attempt`
(line 75 of `login_with_persistence.py`), so with every submit answered by the
incorrect-captcha indicator the loop never returns at all — for every positive
`max_attempts = N + 1` and every fuel bound, the run is still in the loop
(`none`), instead of having returned failure within `N + 1` attempts. -/
theorem handle_captcha_incorrect_never_terminates (N fuel : Nat) :
    handle_captcha_on_page (fun _ => .incorrectCaptcha) (N + 1) fuel = none :=
  handle_captcha_loop_incorrect_stuck (N + 1) (Nat.succ_pos N) fuel 0

/-!
Generic step retrier — `_execute_robust_step` in
`name_checker_shivansh/selenium_utils.py` (lines 232-283).

The `for attempt in range(max_retries)` loop is embedded structurally on the
number of remaining attempts (`remaining = max_retries - attempt`), so the
source test `attempt == max_retries - 1` becomes `remaining = 1`. Each
attempt reaches one of the outcomes below; the embedding returns the final
result together with the number of attempts that were executed.
-/

/-- Per-attempt outcome of `_execute_robust_step`, classified from the source:
either the action/submit/success-wait all succeed, or the success wait raises
`TimeoutException` (with `failureDetected` recording whether the supplied
failure condition was then detected within the short secondary wait), or some
other exception escapes the attempt body. -/
inductive StepAttemptOutcome
  | success
  | timeoutSuccessWait (failureDetected : Bool)
  | otherError
  deriving DecidableEq

/-- Result of `_execute_robust_step`: normal return, or one of the four
distinct `VerificationStepFailed` raises of the source (unexpected state on
the last attempt; timeout without failure condition on the last attempt;
unexpected exception on the last attempt; loop exhausted normally). -/
inductive StepOutcome
  | ok
  | failedUnexpectedState
  | failedTimeout
  | failedUnexpectedError
  | failedMaxAttempts
  deriving DecidableEq

/-- Embedding of the retry loop of `_execute_robust_step`. Returns the result
and the number of attempts executed. `hasFailureCond` records whether a
`failure_condition` argument was supplied. -/
def robust_step_loop (env : Nat → StepAttemptOutcome) (hasFailureCond : Bool) :
    Nat → Nat → StepOutcome × Nat
  | 0, _ => (.failedMaxAttempts, 0)
  | remaining + 1, attempt =>
    let retry :=
      let r := robust_step_loop env hasFailureCond remaining (attempt + 1)
      (r.1, r.2 + 1)
    match env attempt with
    | .success => (.ok, 1)
    | .timeoutSuccessWait fd =>
      if hasFailureCond then
        if fd then retry
        else if remaining + 1 = 1 then (.failedUnexpectedState, 1) else retry
      else if remaining + 1 = 1 then (.failedTimeout, 1) else retry
    | .otherError => if remaining + 1 = 1 then (.failedUnexpectedError, 1) else retry

/-- Embedding of `_execute_robust_step`: run the loop with the full retry
budget from attempt index 0. -/
def _execute_robust_step (env : Nat → StepAttemptOutcome) (hasFailureCond : Bool)
    (max_retries : Nat) : StepOutcome × Nat :=
  robust_step_loop env hasFailureCond max_retries 0

/-- Environment in which the first attempt times out with the supplied failure
condition not detected, and the second attempt succeeds. -/
def robustStepEnvCE : Nat → StepAttemptOutcome :=
  fun n => if n = 0 then .timeoutSuccessWait false else .success

/-- C2 counterexample: with two retries, a first attempt whose success wait
times out, a supplied failure condition that is not detected, and a second
attempt that succeeds, `_execute_robust_step` consumes the second attempt and
returns success — it does not fail immediately with `VerificationStepFailed`
as the claim states. -/
theorem robust_step_unexpected_state_not_immediate :
    _execute_robust_step robustStepEnvCE true 2 = (.ok, 2) ∧
    (_execute_robust_step robustStepEnvCE true 2).1 ≠ .failedUnexpectedState := by
  constructor
  · rfl
  · intro h
    rw [show (_execute_robust_step robustStepEnvCE true 2).1 = .ok from rfl] at h
    exact StepOutcome.noConfusion h

/-- C2 (amended): when the success wait times out, a failure condition is
supplied and it is not detected within the short secondary wait, the step
raises `VerificationStepFailed` (unexpected state) only if this happens on the
final attempt of the budget; on a non-final attempt it retries, consuming a
further attempt. -/
theorem robust_step_unexpected_state_behavior (env : Nat → StepAttemptOutcome)
    (remaining attempt : Nat) (henv : env attempt = .timeoutSuccessWait false) :
    robust_step_loop env true 1 attempt = (.failedUnexpectedState, 1) ∧
    (1 ≤ remaining →
      (robust_step_loop env true (remaining + 1) attempt).1 =
        (robust_step_loop env true remaining (attempt + 1)).1 ∧
      (robust_step_loop env true (remaining + 1) attempt).2 =
        (robust_step_loop env true remaining (attempt + 1)).2 + 1) := by
  constructor
  · simp [robust_step_loop, henv]
  · intro hrem
    have hne : remaining + 1 ≠ 1 := by omega
    simp [robust_step_loop, henv, hne]

/-- Closed witness for the amended C2 theorem at a concrete environment:
an unexpected-state timeout on the only remaining attempt fails immediately. -/
theorem robust_step_unexpected_state_behavior_witness :
    robust_step_loop robustStepEnvCE true 1 0 = (.failedUnexpectedState, 1) :=
  (robust_step_unexpected_state_behavior robustStepEnvCE 1 0 rfl).1

/-!
Login routine — `login_to_mca_and_verify` in
`name_checker_shivansh/login_with_persistence.py` (lines 191-281).

The routine navigates to the login page; if the browser was redirected to the
MCA homepage it navigates straight to the application-history page and skips
the credential form. Otherwise it waits for the CAPTCHA image (login page
ready); reads `username`/`password` via `config.get(..., "")`; and if either
is falsy it logs which of the two is missing, saves a screenshot and returns
`(driver, False)` before any credential entry, CAPTCHA solving or submit.
With both credentials present it enters them and runs the CAPTCHA loop
(abstracted here as the environment-supplied action list `captchaActions`);
the final status in all non-early-return paths is the URL check.
-/

/-- Credentials as read from the configuration; a missing key is modelled as
`""` exactly as `config.get("username", "")` yields. -/
structure LoginConfig where
  username : String
  password : String

/-- Browser-visible actions of the login routine. -/
inductive LoginAction
  | navigateLogin
  | navigateHistory
  | enterUsername (u : String)
  | enterPassword (p : String)
  | captchaSolveAttempt
  | submitLoginForm
  deriving DecidableEq

/-- Error logs of the login routine relevant to the credential check. -/
inductive LoginLog
  | missingCredentials (usernameMissing passwordMissing : Bool)
  | loginFieldsTimeout
  deriving DecidableEq

/-- Environment of one login run: whether the initial load redirected to the
MCA homepage, whether the login page became ready (CAPTCHA image present),
the browser actions the CAPTCHA loop would perform after credentials are
entered, and the outcome of the final URL check. -/
structure LoginEnv where
  landedOnHome : Bool
  loginPageReady : Bool
  captchaActions : List LoginAction
  urlCheckOk : Bool

/-- Embedding of `login_to_mca_and_verify`. Returns the login-success flag,
the browser actions performed, and the error logs emitted. -/
def login_to_mca_and_verify (env : LoginEnv) (config : LoginConfig) :
    Bool × List LoginAction × List LoginLog :=
  if env.landedOnHome then
    (env.urlCheckOk, [.navigateLogin, .navigateHistory], [])
  else if env.loginPageReady = false then
    (false, [.navigateLogin], [.loginFieldsTimeout])
  else
    if config.username = "" ∨ config.password = "" then
      (false, [.navigateLogin],
        [.missingCredentials (decide (config.username = "")) (decide (config.password = ""))])
    else
      (env.urlCheckOk,
        [.navigateLogin, .enterUsername config.username, .enterPassword config.password] ++
          env.captchaActions,
        [])

/-- Actions that constitute credential entry, CAPTCHA solving or form
submission — the interactions the missing-credentials claim forbids. -/
def isCredentialOrSubmitAction : LoginAction → Bool
  | .enterUsername _ => true
  | .enterPassword _ => true
  | .captchaSolveAttempt => true
  | .submitLoginForm => true
  | .navigateLogin => false
  | .navigateHistory => false

/-- C3: with an empty (or absent) username or password, the login routine
never performs credential entry, CAPTCHA solving or form submission in any
environment; and whenever the form-login path is taken (no homepage redirect)
and the login page is ready, it fails immediately: it returns an unsuccessful
status and logs a missing-credentials error whose flags identify exactly
which of username/password is missing. -/
theorem login_to_mca_and_verify_missing_credentials (env : LoginEnv) (config : LoginConfig)
    (hcred : config.username = "" ∨ config.password = "") :
    (∀ a ∈ (login_to_mca_and_verify env config).2.1, isCredentialOrSubmitAction a = false) ∧
    (env.landedOnHome = false → env.loginPageReady = true →
      login_to_mca_and_verify env config =
        (false, [.navigateLogin],
          [.missingCredentials (decide (config.username = ""))
            (decide (config.password = ""))])) := by
  constructor
  · intro a ha
    unfold login_to_mca_and_verify at ha
    by_cases hhome : env.landedOnHome
    · rw [if_pos hhome] at ha
      simp only [List.mem_cons, List.mem_singleton, List.not_mem_nil] at ha
      rcases ha with rfl | rfl | h
      · rfl
      · rfl
      · exact h.elim
    · rw [if_neg hhome] at ha
      by_cases hready : env.loginPageReady = false
      · rw [if_pos hready] at ha
        simp only [List.mem_singleton] at ha
        rw [ha]
        rfl
      · rw [if_neg hready, if_pos hcred] at ha
        simp only [List.mem_singleton] at ha
        rw [ha]
        rfl
  · intro hhome hready
    unfold login_to_mca_and_verify
    rw [hhome, hready]
    simp [hcred]

/-- Closed witness for C3: a configuration with a username but an empty
password, in the normal form-login environment. -/
theorem login_to_mca_and_verify_missing_credentials_witness :
    login_to_mca_and_verify ⟨false, true, [], false⟩ ⟨"testuser", ""⟩ =
      (false, [.navigateLogin], [.missingCredentials false true]) := by
  have h := (login_to_mca_and_verify_missing_credentials ⟨false, true, [], false⟩
    ⟨"testuser", ""⟩ (Or.inr rfl)).2 rfl rfl
  exact h.trans (by decide)

/-!
Result scraper — `scrape_all_tabs` in `name_checker_shivansh/scrape_tabs.py`
(lines 43-69).

The function iterates over the fixed tab mapping (insertion order: `error`,
`name_similarity`, `trademark`); for each key it calls `click_tab` and then
`scrape_table`. Its `except` clause (line 56) catches only
`TimeoutException`, `NoSuchElementException` and
`ElementClickInterceptedException`, storing `None` for the key and
continuing. Which failures actually surface as one of these caught types
depends on the helpers:

* `scrape_table` re-raises `TimeoutException` (table-presence wait) and
  `NoSuchElementException` untouched — caught, isolated;
* `_click_element`'s initial page-ready wait raises `TimeoutException`
  before the retry loop (selenium_utils.py line 47) — it reaches `click_tab`
  unwrapped and is caught, isolated;
* but every failure inside `_click_element`'s retry loop — a clickable-wait
  `TimeoutException`, an `ElementClickInterceptedException`, exhausted
  stale retries — is converted by the helper into a raised
  `ElementNotInteractableException` (selenium_utils.py lines 148 and 150),
  which is in none of the catch tuples of `click_tab` (scrape_tabs.py
  line 20) or `scrape_all_tabs` (line 56): it propagates out of
  `scrape_all_tabs`, aborting the whole scrape with no record returned.

The JSON dump is skipped when `output_json_path` is `None` (the API caller
passes `None`), so it is not modelled.
-/

/-- The three result-tab keys. -/
inductive TabKey
  | error
  | name_similarity
  | trademark
  deriving DecidableEq

/-- Iteration order of the source tab mapping. -/
def tab_order : List TabKey := [.error, .name_similarity, .trademark]

/-- Per-tab outcome of one iteration of the scrape loop, classified from the
source paths: the table scrapes as `rows`; the table never appears (caught,
isolated); the tab click fails in the page-ready wait (`TimeoutException`
propagates unwrapped — caught, isolated); or the tab click fails inside
`_click_element`'s retry loop, which raises `ElementNotInteractableException`
(uncaught). -/
inductive TabOutcome
  | scraped (rows : List (List String))
  | tableMissing
  | clickTimeoutCaught
  | clickRaisesNotInteractable
  deriving DecidableEq

/-- The exception that escapes the catch tuples and aborts the scrape. -/
inductive ScrapeAbort
  | elementNotInteractable
  deriving DecidableEq

/-- One iteration of the scrape loop for a tab: a record entry on the caught
paths (`none` for the caught failures), or the uncaught exception. -/
def scrape_tab : TabOutcome → Except ScrapeAbort (Option (List (List String)))
  | .scraped rows => .ok (some rows)
  | .tableMissing => .ok none
  | .clickTimeoutCaught => .ok none
  | .clickRaisesNotInteractable => .error .elementNotInteractable

/-- The loop of `scrape_all_tabs` over the remaining tab keys: caught per-tab
failures append a `None` entry and continue; an uncaught exception aborts the
run, discarding the record built so far. -/
def scrape_tabs_loop (env : TabKey → TabOutcome) :
    List TabKey → List (TabKey × Option (List (List String))) →
    Except ScrapeAbort (List (TabKey × Option (List (List String))))
  | [], acc => .ok acc
  | k :: ks, acc =>
    match scrape_tab (env k) with
    | .ok v => scrape_tabs_loop env ks (acc ++ [(k, v)])
    | .error e => .error e

/-- Embedding of `scrape_all_tabs`: iterate the tab mapping in insertion
order, returning either the record or the uncaught exception. -/
def scrape_all_tabs (env : TabKey → TabOutcome) :
    Except ScrapeAbort (List (TabKey × Option (List (List String)))) :=
  scrape_tabs_loop env tab_order []

/-- C4: the claim says a tab that cannot be activated yields `none` for its
key only, with the other two tabs still scraped. Evaluating the code at such
runs refutes this: when a tab activation fails inside `_click_element`'s
retry loop (first two conjuncts — whatever the other tabs would do), the
raised `ElementNotInteractableException` escapes every catch tuple and the
whole scrape aborts with no record at all. Only the caught failure modes
behave as claimed: the third conjunct shows a table-never-appears failure
being isolated exactly as the claim describes. -/
theorem scrape_all_tabs_uncaught_click_failure_aborts (o : TabOutcome)
    (d1 d2 : List (List String)) :
    (scrape_all_tabs (fun k => match k with
      | .error => .clickRaisesNotInteractable
      | .name_similarity => o
      | .trademark => o) = .error .elementNotInteractable) ∧
    (scrape_all_tabs (fun k => match k with
      | .error => .scraped d1
      | .name_similarity => .clickRaisesNotInteractable
      | .trademark => o) = .error .elementNotInteractable) ∧
    (scrape_all_tabs (fun k => match k with
      | .error => .scraped d1
      | .name_similarity => .tableMissing
      | .trademark => .scraped d2) =
      .ok [(.error, some d1), (.name_similarity, none), (.trademark, some d2)]) :=
  ⟨rfl, rfl, rfl⟩

/-!
NIC-code multi-select — `select_nic_codes_dynamic` and the page-size lookup in
`main.py` (lines 139-190).

The code-list string is parsed as
`[code.strip() for code in nic_codes_str.split(',') if code.strip()]`.
For each parsed code (with its position `idx`) the loop types the code into
the search bar, selects a page-size value that depends only on `idx`, and
clicks the row checkbox when it is not already selected. Only after the loop
over all codes does it click the Add button, once. Any exception inside the
loop re-raises and aborts the run before the Add click; the embedding below
is the trace of a completed (non-raising) run, with the environment supplying
the per-position already-selected state of the checkboxes.
-/

/-- Browser actions issued by `select_nic_codes_dynamic`. -/
inductive NicAction
  | searchText (code : String)
  | pageSizeSelect (v : String)
  | clickCheckbox (code : String)
  | clickAdd
  deriving DecidableEq

/-- Embedding of the page-size choice of `select_nic_codes_dynamic`
(`main.py` lines 156-162): default `'100'`, overridden by the
`if idx == 0 / elif idx == 1 / elif idx == 2` chain. -/
def page_size_value (idx : Nat) : String :=
  if idx = 0 then "100"
  else if idx = 1 then "10"
  else if idx = 2 then "100"
  else "100"

/-- Embedding of the list comprehension parsing the comma-separated code
list: split on commas, strip whitespace, keep the non-empty entries. -/
def parse_nic_codes (nic_codes_str : String) : List String :=
  (((splitOnChar ',' nic_codes_str.data).map pyStrip).filter (fun l => !l.isEmpty)).map
    (fun l => ⟨l⟩)

/-- Actions of one iteration of the per-code loop: type the code, pick the
position-dependent page size, and click the checkbox unless it is already
selected. -/
def nic_code_iter_actions (alreadySelected : Nat → Bool) (idx : Nat) (code : String) :
    List NicAction :=
  [.searchText code, .pageSizeSelect (page_size_value idx)] ++
    (if alreadySelected idx then [] else [.clickCheckbox code])

/-- Embedding of `select_nic_codes_dynamic`: the action trace of a completed
run — the per-code iterations in order, then the single Add click. -/
def select_nic_codes_dynamic (alreadySelected : Nat → Bool) (nic_codes_str : String) :
    List NicAction :=
  ((parse_nic_codes nic_codes_str).enum.map
    (fun p => nic_code_iter_actions alreadySelected p.1 p.2)).flatten ++ [.clickAdd]

/-- C5: for every comma-separated code list (and every checkbox state), the
trace of `select_nic_codes_dynamic` contains exactly one Add click, and that
Add click is the final action — it comes after all the per-code processing,
including every checkbox click. -/
theorem select_nic_codes_dynamic_single_add (alreadySelected : Nat → Bool)
    (nic_codes_str : String) :
    (select_nic_codes_dynamic alreadySelected nic_codes_str).count .clickAdd = 1 ∧
    ∃ body, select_nic_codes_dynamic alreadySelected nic_codes_str = body ++ [.clickAdd] ∧
      NicAction.clickAdd ∉ body := by
  have hnotin : NicAction.clickAdd ∉
      ((parse_nic_codes nic_codes_str).enum.map
        (fun p => nic_code_iter_actions alreadySelected p.1 p.2)).flatten := by
    intro hmem
    rw [List.mem_flatten] at hmem
    obtain ⟨l, hl, hal⟩ := hmem
    rw [List.mem_map] at hl
    obtain ⟨p, _, rfl⟩ := hl
    by_cases hsel : alreadySelected p.1 <;>
      simp [nic_code_iter_actions, hsel] at hal
  constructor
  · unfold select_nic_codes_dynamic
    rw [List.count_append]
    rw [List.count_eq_zero.mpr hnotin]
    rfl
  · exact ⟨_, rfl, hnotin⟩

/-- C8: the page-size value chosen for the code at position `i` depends only
on the position: `'100'` for the first code, `'10'` for the second, and
`'100'` for the third and every later position. -/
theorem page_size_value_position_lookup :
    page_size_value 0 = "100" ∧ page_size_value 1 = "10" ∧
    ∀ i, 2 ≤ i → page_size_value i = "100" := by
  refine ⟨rfl, rfl, fun i hi => ?_⟩
  unfold page_size_value
  have h0 : ¬ i = 0 := by omega
  have h1 : ¬ i = 1 := by omega
  rw [if_neg h0, if_neg h1]
  by_cases h2 : i = 2
  · rw [if_pos h2]
  · rw [if_neg h2]

/-- Closed witness for C8: the lookup evaluated at positions 0, 1 and 7. -/
theorem page_size_value_position_lookup_witness :
    page_size_value 0 = "100" ∧ page_size_value 1 = "10" ∧ page_size_value 7 = "100" :=
  ⟨page_size_value_position_lookup.1, page_size_value_position_lookup.2.1,
    page_size_value_position_lookup.2.2 7 (by decide)⟩

/-!
Company-name formatting — `format_company_name` in `main.py` (lines 192-203).

The source upper-cases the name, then appends `" PRIVATE LIMITED"` when
`"PRIVATE LIMITED" not in name.upper()` (note: the containment test is made
on the upper-case of the already upper-cased name).
-/

/-- Embedding of `format_company_name`: upper-case the name, then append the
legal suffix when `"PRIVATE LIMITED"` does not occur in the upper-cased
name. -/
def format_company_name (name : String) : String :=
  let name1 := pyUpper name
  if pyContainsSub (pyUpper name1) "PRIVATE LIMITED" = false then
    name1 ++ " PRIVATE LIMITED"
  else
    name1

/-- `pyUpper` distributes over string append. -/
theorem pyUpper_append (s t : String) : pyUpper (s ++ t) = pyUpper s ++ pyUpper t := by
  cases s with
  | mk l1 =>
    cases t with
    | mk l2 =>
      show String.mk ((l1 ++ l2).map Char.toUpper) =
        String.mk (l1.map Char.toUpper) ++ String.mk (l2.map Char.toUpper)
      rw [List.map_append]
      rfl

/-- Appending `" PRIVATE LIMITED"` to any string produces a string containing
`"PRIVATE LIMITED"` as a substring. -/
theorem contains_private_limited_suffix (u : String) :
    pyContainsSub (u ++ " PRIVATE LIMITED") "PRIVATE LIMITED" = true := by
  unfold pyContainsSub
  have hdata : (u ++ " PRIVATE LIMITED").data = (u.data ++ [' ']) ++ "PRIVATE LIMITED".data := by
    rw [String.data_append, List.append_assoc]
    rfl
  rw [hdata]
  exact containsSubB_append_right _ _ (containsSubB_self _) _

/-- Normal form of `format_company_name`: the containment test on the doubly
upper-cased name collapses (uppercasing is idempotent) to a test on the
upper-cased input. -/
theorem format_company_name_eq (name : String) :
    format_company_name name =
      if pyContainsSub (pyUpper name) "PRIVATE LIMITED" = true then pyUpper name
      else pyUpper name ++ " PRIVATE LIMITED" := by
  show (if pyContainsSub (pyUpper (pyUpper name)) "PRIVATE LIMITED" = false then
      pyUpper name ++ " PRIVATE LIMITED" else pyUpper name) = _
  rw [pyUpper_idem]
  cases hb : pyContainsSub (pyUpper name) "PRIVATE LIMITED" with
  | false => simp [hb]
  | true => simp [hb]

/-- C9: for every input name, `format_company_name` returns the upper-cased
name when `"PRIVATE LIMITED"` already occurs as a substring of it, and the
upper-cased name with `" PRIVATE LIMITED"` appended otherwise. -/
theorem format_company_name_upper_and_suffix (name : String) :
    format_company_name name =
      if pyContainsSub (pyUpper name) "PRIVATE LIMITED" = true then pyUpper name
      else pyUpper name ++ " PRIVATE LIMITED" :=
  format_company_name_eq name

/-- C10: `format_company_name` is idempotent — applying it to its own output
returns the output unchanged. -/
theorem format_company_name_idempotent (name : String) :
    format_company_name (format_company_name name) = format_company_name name := by
  rw [format_company_name_eq name]
  by_cases hb : pyContainsSub (pyUpper name) "PRIVATE LIMITED" = true
  · rw [if_pos hb]
    rw [format_company_name_eq (pyUpper name), pyUpper_idem, if_pos hb]
  · rw [if_neg hb]
    rw [format_company_name_eq (pyUpper name ++ " PRIVATE LIMITED")]
    have hup : pyUpper (pyUpper name ++ " PRIVATE LIMITED") =
        pyUpper name ++ " PRIVATE LIMITED" := by
      rw [pyUpper_append, pyUpper_idem]
      have hlit : pyUpper " PRIVATE LIMITED" = " PRIVATE LIMITED" := by decide
      rw [hlit]
    rw [hup]
    rw [if_pos (contains_private_limited_suffix (pyUpper name))]

/-!
Top-level API wrapper — `check_name` in `api_v1.py` (lines 55-123).

All automation outcomes are converted into a uniform envelope
(`success` flag, `data` or null, `error` string). The distinct exception
classes of the source map to the outcome constructors below. In the generic
`except Exception` handler the source tests
`"Browse context has been discarded" in str(e).lower()` — a case-sensitive
containment test of a needle containing upper-case letters against an
all-lower-cased haystack.
-/

/-- Outcome of the automation run inside the `try` body of the endpoint,
classified by the exception handlers of the source. -/
inductive RunOutcome
  | ok (result : List (TabKey × Option (List (List String))))
  | automationError (msg : String)
  | timeoutError
  | noSuchElementError
  | notInteractableError
  | unexpectedError (msg : String)

/-- The uniform response envelope of the endpoint. -/
structure Envelope where
  success : Bool
  data : Option (List (TabKey × Option (List (List String))))
  error : Option String
  deriving DecidableEq

/-- Embedding of the endpoint `check_name`: the envelope returned for each
run outcome, with the error strings of the source. -/
def check_name (outcome : RunOutcome) : Envelope :=
  match outcome with
  | .ok r => ⟨true, some r, none⟩
  | .automationError m =>
    ⟨false, none, some ("Automation process failed at a critical step: " ++ m)⟩
  | .timeoutError =>
    ⟨false, none, some "A required element on the page did not load in time. The website may be experiencing high load or is unresponsive."⟩
  | .noSuchElementError =>
    ⟨false, none, some "Automation failed because a required element could not be found. The website\x27s structure may have been updated."⟩
  | .notInteractableError =>
    ⟨false, none, some "Automation failed because an element was blocked by another element on the page (like a pop-up or loading spinner)."⟩
  | .unexpectedError m =>
    if pyContainsSub (pyLower m) "Browse context has been discarded" = true then
      ⟨false, none, some "A critical error occurred with the automation browser. Please try again."⟩
    else
      ⟨false, none, some ("An unexpected error occurred: " ++ m ++ ". Site might be slow or unresponsive.")⟩

/-- The crash-branch test of `check_name` can never succeed: its needle
contains the upper-case character `B`, while the lower-cased exception text
contains no upper-case character at all. -/
theorem crash_needle_never_matches (m : String) :
    pyContainsSub (pyLower m) "Browse context has been discarded" = false := by
  unfold pyContainsSub
  have hn : "Browse context has been discarded".data =
      'B' :: "rowse context has been discarded".data := rfl
  rw [hn]
  apply containsSubB_head_notMem
  intro c hc
  have hc2 : c ∈ m.data.map Char.toLower := hc
  rw [List.mem_map] at hc2
  obtain ⟨a, _, rfl⟩ := hc2
  exact char_toLower_ne_B a

/-- C6: every outcome of `check_name` is a uniform success/data/error
envelope, but the browser-crash special case is unreachable — for every
unexpected-exception message, even one signalling a discarded browsing
context, the endpoint returns the generic unexpected-error envelope, never
the specific browser-crash message (the source lower-cases the exception
text and then compares it with a needle that still contains upper-case
letters). -/
theorem check_name_crash_message_unreachable :
    (∀ m, check_name (.unexpectedError m) =
      ⟨false, none,
        some ("An unexpected error occurred: " ++ m ++ ". Site might be slow or unresponsive.")⟩) ∧
    check_name (.unexpectedError "Browse context has been discarded") ≠
      ⟨false, none,
        some "A critical error occurred with the automation browser. Please try again."⟩ ∧
    (∀ o, ((check_name o).success = true ∧ (check_name o).data ≠ none ∧
        (check_name o).error = none) ∨
      ((check_name o).success = false ∧ (check_name o).data = none ∧
        (check_name o).error ≠ none)) := by
  have hgen : ∀ m, check_name (.unexpectedError m) =
      ⟨false, none,
        some ("An unexpected error occurred: " ++ m ++ ". Site might be slow or unresponsive.")⟩ := by
    intro m
    simp only [check_name]
    rw [crash_needle_never_matches m]
    simp
  refine ⟨hgen, ?_, ?_⟩
  · intro h
    have h1 := (hgen "Browse context has been discarded").symm.trans h
    exact absurd h1 (by decide)
  · intro o
    cases o with
    | ok r => left; exact ⟨rfl, by simp [check_name], rfl⟩
    | automationError m => right; exact ⟨rfl, rfl, by simp [check_name]⟩
    | timeoutError => right; exact ⟨rfl, rfl, by simp [check_name]⟩
    | noSuchElementError => right; exact ⟨rfl, rfl, by simp [check_name]⟩
    | notInteractableError => right; exact ⟨rfl, rfl, by simp [check_name]⟩
    | unexpectedError m =>
      right
      rw [hgen m]
      exact ⟨rfl, rfl, by simp⟩

/-!
Text-entry primitive — `_send_text` in `name_checker_shivansh/selenium_utils.py`
(lines 80-126).

The function first logs the call (locator and key length). If `keys` is falsy
(empty or `None`, modelled as `""`) it logs an error naming the locator and
returns at once, before any browser interaction. Otherwise it runs the retry
loop: per attempt it waits for the element, clicks to focus, optionally
clears, sends the keys, and on a readback mismatch falls back to scripted
value assignment; a `StaleElementReferenceException` retries, any other
exception (and budget exhaustion) raises `ElementNotInteractableException`.
Interactions inside attempts that raise are abstracted away (they are not
relevant to the claims settled here).
-/

/-- Log entries of `_send_text` relevant to the empty-input guard. -/
inductive SendTextLog
  | callDebug (locator : String) (keysLen : Nat)
  | emptyKeysError (locator : String)
  deriving DecidableEq

/-- Browser interactions of `_send_text`. -/
inductive SendInteraction
  | clickFocus
  | clearField
  | sendKeys (keys : String)
  | jsSetValue (keys : String)
  deriving DecidableEq

/-- How `_send_text` finishes: the early `return` of the empty-input guard, a
completed send, or the raised `ElementNotInteractableException`. -/
inductive SendResult
  | returnedEarly
  | completed
  | raisedNotInteractable
  deriving DecidableEq

/-- Per-attempt outcome of the `_send_text` retry loop, classified from the
source. -/
inductive SendAttemptOutcome
  | okAttempt (readbackMatches : Bool)
  | stale
  | raisedOther
  deriving DecidableEq

/-- Embedding of the retry loop of `_send_text` (fuel = remaining retries). -/
def send_text_loop (env : Nat → SendAttemptOutcome) (keys : String) (clear_first : Bool) :
    Nat → Nat → List SendInteraction × SendResult
  | 0, _ => ([], .raisedNotInteractable)
  | fuel + 1, attempt =>
    match env attempt with
    | .okAttempt readbackMatches =>
      ([.clickFocus] ++ (if clear_first then [.clearField] else []) ++ [.sendKeys keys] ++
        (if readbackMatches then [] else [.jsSetValue keys]), .completed)
    | .stale => send_text_loop env keys clear_first fuel (attempt + 1)
    | .raisedOther => ([], .raisedNotInteractable)

/-- Embedding of `_send_text`: the emitted logs, the browser interactions, and
how the call finished. -/
def _send_text (env : Nat → SendAttemptOutcome) (locator keys : String) (clear_first : Bool)
    (retries : Nat) : List SendTextLog × List SendInteraction × SendResult :=
  if keys = "" then
    ([.callDebug locator keys.length, .emptyKeysError locator], [], .returnedEarly)
  else
    let r := send_text_loop env keys clear_first retries 0
    ([.callDebug locator keys.length], r.1, r.2)

/-- C7: called with empty (or missing) input text, `_send_text` rejects the
input without attempting any browser interaction: it logs an error naming the
locator and returns immediately, in every environment and for every retry
budget. -/
theorem send_text_rejects_empty_input (env : Nat → SendAttemptOutcome) (locator : String)
    (clear_first : Bool) (retries : Nat) :
    _send_text env locator "" clear_first retries =
      ([.callDebug locator 0, .emptyKeysError locator], [], .returnedEarly) := by
  unfold _send_text
  rw [if_pos rfl]
  rfl
